import Mathlib

/-!
Shallow embedding of the currency-converter program (`src/main.py`) and
verification of the specification's claims about it.

Python floats are modelled as exact rationals (`ℚ`), Python strings as Lean
`String`, parsed JSON bodies as the inductive `Json`, and Python dictionaries
as association lists.  Exceptions are modelled with `Except` over the
`PyError` type, which distinguishes the exception classes the program can
raise (`ValueError`, `RuntimeError`, `ZeroDivisionError`, `TypeError`).
The network is modelled as an explicit parameter (`NetResult`) holding the
outcome `requests.get` would have produced.
-/

set_option autoImplicit false

namespace CurrencyConverter

/-- A parsed JSON value, as produced by `r.json()` in the source. -/
inductive Json where
  | null : Json
  | bool (b : Bool) : Json
  | num (q : ℚ) : Json
  | str (s : String) : Json
  | arr (elems : List Json) : Json
  | obj (fields : List (String × Json)) : Json

/-- The Python exception classes the program can raise.  `ValueError` and
`RuntimeError` are the two classes the CLI driver catches; `ZeroDivisionError`
and `TypeError` are outside that set. -/
inductive PyError where
  | valueError (msg : String)
  | runtimeError (msg : String)
  | zeroDivisionError (msg : String)
  | typeError (msg : String)
deriving DecidableEq

/-- Models the `except (ValueError, RuntimeError)` clause of `main`
(src/main.py line 118): which exception classes the driver catches. -/
def isCaught : PyError → Bool
  | .valueError _ => true
  | .runtimeError _ => true
  | .zeroDivisionError _ => false
  | .typeError _ => false

/-- Python `str(e)` for the exceptions above: the message they carry. -/
def pyErrStr : PyError → String
  | .valueError m => m
  | .runtimeError m => m
  | .zeroDivisionError m => m
  | .typeError m => m

/-- The fields of a JSON object (`[]` for non-objects; the claims only
quantify over object bodies, for which this is exact). -/
def jsonFields : Json → List (String × Json)
  | .obj fs => fs
  | _ => []

/-- Python `key in data` for a parsed JSON object body. -/
def jsonHasKey (j : Json) (k : String) : Bool :=
  ((jsonFields j).lookup k).isSome

/-- Python `data.get(k, d)` for a parsed JSON object body. -/
def jsonGetD (j : Json) (k : String) (d : Json) : Json :=
  ((jsonFields j).lookup k).getD d

/-- Python `data[k]` for a parsed JSON object body (only used behind a
`jsonHasKey` guard, as in the source). -/
def jsonIdx (j : Json) (k : String) : Json :=
  jsonGetD j k .null

/-- Python `s.upper()` for the ASCII currency codes the program handles.
(Lean's own `String.toUpper` is the same character map, but its
well-founded-recursion implementation blocks kernel evaluation, so the map
is spelled out structurally here.) -/
def pyUpper (s : String) : String :=
  String.mk (s.data.map Char.toUpper)

/-- Python truthiness of `api_key` as obtained from `os.getenv`: `None` and
the empty string are falsy (`if not api_key:` in src/main.py line 26). -/
def pyTruthy : Option String → Bool
  | none => false
  | some s => !s.isEmpty

/-- Python string slicing `s[:n]` (used for the ≤200-character snippets in
src/main.py lines 36 and 54). -/
def pySlice (s : String) (n : Nat) : String :=
  String.mk (s.data.take n)

/-- Numeric value of a decimal digit character. -/
def digitVal (c : Char) : Nat := c.toNat - 48

/-- The natural number denoted by a list of decimal digit characters. -/
def natOfDigits (cs : List Char) : Nat :=
  cs.foldl (fun a c => a * 10 + digitVal c) 0

/-- Parses an unsigned decimal literal (digits with an optional single dot),
the form Python `float()` accepts for the numeric strings the providers
send (e.g. `"1.0"`, `"0.9"`). -/
def parseUnsignedDecimal (cs : List Char) : Option ℚ :=
  let ip := cs.takeWhile (fun c => c.isDigit)
  let rest := cs.dropWhile (fun c => c.isDigit)
  match rest with
  | [] => if ip.isEmpty then none else some (mkRat (natOfDigits ip) 1)
  | '.' :: fp =>
      if fp.all (fun c => c.isDigit) && (!ip.isEmpty || !fp.isEmpty) then
        some (mkRat (natOfDigits ip * 10 ^ fp.length + natOfDigits fp) (10 ^ fp.length))
      else none
  | _ => none

/-- Parses a signed decimal literal, modelling the strings `float()`
converts. -/
def parseDecimal (s : String) : Option ℚ :=
  match s.data with
  | '-' :: rest => (parseUnsignedDecimal rest).map Neg.neg
  | '+' :: rest => parseUnsignedDecimal rest
  | cs => parseUnsignedDecimal cs

/-- Python `float(v)` applied to a parsed JSON value: numbers pass through,
numeric strings are parsed, booleans coerce, anything else is a
`TypeError`; a non-numeric string is a `ValueError`. -/
def pyFloat : Json → Except PyError ℚ
  | .num q => .ok q
  | .bool b => .ok (if b then 1 else 0)
  | .str s =>
      match parseDecimal s with
      | some q => .ok q
      | none => .error (.valueError ("could not convert string to float: " ++ s))
  | _ => .error (.typeError "float() argument must be a string or a real number")

/-- The dict comprehension `{k: float(v) for k, v in data["rates"].items()}`
(src/main.py line 50): converts every value with `float`, propagating the
first exception. -/
def floatItems : List (String × Json) → Except PyError (List (String × Json))
  | [] => .ok []
  | (k, v) :: rest => do
      let q ← pyFloat v
      let l ← floatItems rest
      .ok ((k, .num q) :: l)

mutual

/-- Python `str(data)` for a parsed JSON value (used in the
`UnexpectedResponseShape` snippet, src/main.py line 54). -/
def reprJson : Json → String
  | .null => "None"
  | .bool b => if b then "True" else "False"
  | .num q => toString q
  | .str s => "\x27" ++ s ++ "\x27"
  | .arr xs => "[" ++ reprElems xs ++ "]"
  | .obj fs => "\x7b" ++ reprFields fs ++ "\x7d"

/-- Comma-separated rendering of a JSON array's elements. -/
def reprElems : List Json → String
  | [] => ""
  | [x] => reprJson x
  | x :: xs => reprJson x ++ ", " ++ reprElems xs

/-- Comma-separated rendering of a JSON object's fields. -/
def reprFields : List (String × Json) → String
  | [] => ""
  | [(k, v)] => "\x27" ++ k ++ "\x27: " ++ reprJson v
  | (k, v) :: fs => "\x27" ++ k ++ "\x27: " ++ reprJson v ++ ", " ++ reprFields fs

end

/-- The normalized rate table returned by `fetch_rates`: the common format
`{base, rates, updated}` of the spec's data model. -/
structure RateTable where
  base : Json
  rates : Json
  updated : Json

/-- The outcome the modelled network produces for the single
`requests.get(url, timeout=10)` call: either a transport-level exception or
a response with a status code, a raw text body, and the parsed JSON body
(`none` when the body is malformed JSON). -/
inductive NetResult where
  | netFail (msg : String)
  | reply (status : Nat) (text : String) (body : Option Json)

/-- `fetch_rates(api_key, base)` from src/main.py lines 17-54.  The network
outcome is passed explicitly; the second component of the result records
whether the HTTP GET was issued. -/
def fetch_rates (api_key : Option String) (base : String) (net : NetResult) :
    Except PyError RateTable × Bool :=
  if !(pyTruthy api_key) then
    (.error (.valueError "Missing API key. Put it in .env as API_KEY=..."), false)
  else
    match net with
    | .netFail msg => (.error (.runtimeError ("Network error: " ++ msg)), true)
    | .reply status text body =>
      if status ≠ 200 then
        (.error (.runtimeError ("HTTP " ++ toString status ++ ": " ++ pySlice text 200)), true)
      else
        match body with
        | none => (.error (.valueError "Expecting value: malformed JSON"), true)
        | some data =>
          if jsonHasKey data "conversion_rates" then
            (.ok { base := jsonGetD data "base_code" (.str (pyUpper base)),
                   rates := jsonIdx data "conversion_rates",
                   updated := jsonGetD data "time_last_update_utc" (.str "unknown") }, true)
          else if jsonHasKey data "rates" then
            match floatItems (jsonFields (jsonIdx data "rates")) with
            | .ok l =>
              (.ok { base := jsonGetD data "base" (.str (pyUpper base)),
                     rates := .obj l,
                     updated := jsonGetD data "date" (.str "unknown") }, true)
            | .error e => (.error e, true)
          else
            (.error (.runtimeError ("Unexpected API response: " ++ pySlice (reprJson data) 200)), true)

/-- `convert_amount(amount, from_code, to_code, rates)` from src/main.py
lines 56-69: uppercase both codes, check membership, then return
`amount * (rate_to / rate_from)`.  Division of floats by `0.0` raises
`ZeroDivisionError`; division of non-numeric dict values raises
`TypeError`, exactly as in Python. -/
def convert_amount (amount : ℚ) (from_code to_code : String)
    (rates : List (String × Json)) : Except PyError ℚ :=
  let fc := pyUpper from_code
  let tc := pyUpper to_code
  match rates.lookup fc, rates.lookup tc with
  | some (.num rf), some (.num rt) =>
      if rf = 0 then .error (.zeroDivisionError "float division by zero")
      else .ok (amount * (rt / rf))
  | some _, some _ => .error (.typeError "unsupported operand type(s) for /")
  | _, _ => .error (.valueError ("Unsupported currency in set: " ++ fc ++ ", " ++ tc))

/-- Embeds a float-valued rate mapping (the spec's
`Mapping<CurrencyCode, float>`) into the JSON-valued dictionaries
`convert_amount` receives. -/
def toJsonRates (R : List (String × ℚ)) : List (String × Json) :=
  R.map (fun p => (p.1, .num p.2))

/-- `10.0 ** n` for an integer `n`, used by rounding. -/
def pow10 (n : ℤ) : ℚ :=
  if 0 ≤ n then ((10 : ℚ) ^ n.toNat) else 1 / ((10 : ℚ) ^ (-n).toNat)

/-- Round-half-to-even to an integer, Python's rounding mode. -/
def roundHalfEven (q : ℚ) : ℤ :=
  let f := ⌊q⌋
  let r := q - f
  if r < 1 / 2 then f
  else if 1 / 2 < r then f + 1
  else if f % 2 = 0 then f else f + 1

/-- Python `round(q, n)`: round half to even at `n` decimal digits. -/
def pyRound (q : ℚ) (n : ℤ) : ℚ :=
  (roundHalfEven (q * pow10 n) : ℚ) / pow10 n

/-- The parsed CLI arguments (`parse_args`, src/main.py lines 71-90):
`amount`, `from_currency`, `to_currency`, `--base` (default `"USD"`),
`--round` (default `2`). -/
structure Args where
  amount : ℚ
  from_currency : String
  to_currency : String
  base : String
  round : ℤ

/-- The observable outcome of one run of `main`: either the process exits
with the printed lines and an exit code, or an uncaught exception escapes
the `try` block and the interpreter aborts on it. -/
inductive RunOutcome where
  | exited (lines : List String) (code : Nat)
  | crashed (e : PyError)

/-- The fetch-then-convert pipeline inside `main`'s `try` block
(src/main.py lines 100-104): fetch the table, extract `data["rates"]`,
convert. -/
def run_result (api_key : Option String) (args : Args) (net : NetResult) :
    Except PyError ℚ :=
  match (fetch_rates api_key (pyUpper args.base) net).1 with
  | .error e => .error e
  | .ok data =>
      convert_amount args.amount args.from_currency args.to_currency (jsonFields data.rates)

/-- `main(argv)` from src/main.py lines 92-120, given already-parsed
arguments and the network outcome.  On success it computes the rounded
result (line 105) but prints the two fixed lines of lines 108-109 and falls
off the end of the function (exit code 0).  A caught exception prints one
diagnostic line and exits with code 1; any other exception escapes. -/
def main_run (api_key : Option String) (args : Args) (net : NetResult) : RunOutcome :=
  match run_result api_key args net with
  | .ok result =>
      let _rounded := pyRound result args.round
      .exited ["Output improved", "=== Currency Converter v1.0 ==="] 0
  | .error e =>
      if isCaught e then .exited ["❌ Error: " ++ pyErrStr e] 1
      else .crashed e

/-- Whether the character list `t` occurs contiguously inside `s`. -/
def listContainsSeq (s t : List Char) : Bool :=
  t.isPrefixOf s ||
    match s with
    | [] => false
    | _ :: s => listContainsSeq s t

/-- Whether the string `t` occurs as a substring of `s`. -/
def strContainsSub (s t : String) : Bool :=
  listContainsSeq s.data t.data

/-! ### Concrete test data used by the witnesses -/

/-- The spec's example rate mapping `{USD: 1.0, EUR: 0.9}`. -/
def ratesUSDEUR : List (String × ℚ) := [("USD", 1), ("EUR", mkRat 9 10)]

/-- A rate mapping whose from-rate is `0.0`, probing the unguarded division. -/
def ratesZero : List (String × ℚ) := [("USD", 0), ("EUR", mkRat 9 10)]

/-- The spec's shape-A example response body. -/
def bodyA : Json :=
  .obj [("base_code", .str "USD"),
        ("conversion_rates", .obj [("USD", .num 1), ("EUR", .num (mkRat 9 10))]),
        ("time_last_update_utc", .str "t1")]

/-- The spec's shape-B example response body (rates as numeric strings). -/
def bodyB : Json :=
  .obj [("base", .str "USD"),
        ("rates", .obj [("USD", .str "1.0"), ("EUR", .str "0.9")]),
        ("date", .str "t2")]

/-- A response body with neither `conversion_rates` nor `rates`. -/
def bodyOther : Json := .obj [("foo", .str "bar")]

/-- A successful shape-A network outcome. -/
def netA : NetResult := .reply 200 "" (some bodyA)

/-- CLI arguments `100 USD EUR` with the default `--base USD --round 2`. -/
def argsC2 : Args := ⟨100, "USD", "EUR", "USD", 2⟩

/-! ### Helper lemmas -/

theorem mem_of_lookup {β : Type} {l : List (String × β)} {k : String} {v : β}
    (h : l.lookup k = some v) : (k, v) ∈ l := by
  induction l with
  | nil => simp [List.lookup] at h
  | cons p l ih =>
    obtain ⟨a, b⟩ := p
    by_cases hk : k = a
    · subst hk
      simp [List.lookup] at h
      subst h
      exact List.mem_cons_self _ _
    · have hb : (k == a) = false := beq_eq_false_iff_ne.mpr hk
      rw [List.lookup, hb] at h
      exact List.mem_cons_of_mem _ (ih h)

theorem lookup_toJsonRates (R : List (String × ℚ)) (k : String) :
    (toJsonRates R).lookup k = (R.lookup k).map Json.num := by
  induction R with
  | nil => rfl
  | cons p R ih =>
    obtain ⟨a, q⟩ := p
    cases hb : (k == a) with
    | true => simp [toJsonRates, List.lookup, hb]
    | false => simpa [toJsonRates, List.lookup, hb] using ih

theorem convert_ok_of_lookup (x : ℚ) (a b : String) (R : List (String × ℚ))
    (rf rt : ℚ) (hf : R.lookup (pyUpper a) = some rf) (ht : R.lookup (pyUpper b) = some rt)
    (h0 : rf ≠ 0) :
    convert_amount x a b (toJsonRates R) = .ok (x * (rt / rf)) := by
  simp only [convert_amount, lookup_toJsonRates, hf, ht, Option.map_some']
  simp [h0]

theorem convert_zeroDiv_of_lookup (x : ℚ) (a b : String) (R : List (String × ℚ))
    (rt : ℚ) (hf : R.lookup (pyUpper a) = some 0) (ht : R.lookup (pyUpper b) = some rt) :
    convert_amount x a b (toJsonRates R) = .error (.zeroDivisionError "float division by zero") := by
  simp only [convert_amount, lookup_toJsonRates, hf, ht, Option.map_some']
  simp

theorem pySlice_length (s : String) (n : Nat) : (pySlice s n).length ≤ n := by
  show (s.data.take n).length ≤ n
  rw [List.length_take]
  exact min_le_left _ _

theorem convert_unsupported_left (x : ℚ) (a b : String) (R : List (String × Json))
    (h : R.lookup (pyUpper a) = none) :
    convert_amount x a b R =
      .error (.valueError ("Unsupported currency in set: " ++ (pyUpper a) ++ ", " ++ (pyUpper b))) := by
  cases hc : R.lookup (pyUpper b) with
  | none => simp [convert_amount, h, hc]
  | some j => cases j <;> simp [convert_amount, h, hc]

theorem convert_unsupported_right (x : ℚ) (a b : String) (R : List (String × Json))
    (h : R.lookup (pyUpper b) = none) :
    convert_amount x a b R =
      .error (.valueError ("Unsupported currency in set: " ++ (pyUpper a) ++ ", " ++ (pyUpper b))) := by
  cases hc : R.lookup (pyUpper a) with
  | none => simp [convert_amount, h, hc]
  | some j => cases j <;> simp [convert_amount, h, hc]

/-! ### The claims -/

/-- C1: for every amount `x` and rate mapping `R` (positive values, the
spec's data-model invariant) in which both uppercased codes are keys,
`convert_amount` returns exactly `x * (R[toCode] / R[fromCode])`. -/
theorem convert_amount_cross_rate (x : ℚ) (a b : String) (R : List (String × ℚ))
    (hpos : ∀ p ∈ R, 0 < p.2) (rf rt : ℚ)
    (hf : R.lookup (pyUpper a) = some rf) (ht : R.lookup (pyUpper b) = some rt) :
    convert_amount x a b (toJsonRates R) = .ok (x * (rt / rf)) := by
  have hrf : 0 < rf := hpos _ (mem_of_lookup hf)
  exact convert_ok_of_lookup x a b R rf rt hf ht hrf.ne'

/-- Witness for C1 at the spec's example: `convert(100, "usd", "eur",
{USD: 1.0, EUR: 0.9}) = 100 * (0.9 / 1.0) = 90`. -/
theorem convert_amount_cross_rate_witness :
    (∀ p ∈ ratesUSDEUR, 0 < p.2) ∧
    convert_amount 100 "usd" "eur" (toJsonRates ratesUSDEUR) = .ok (100 * ((mkRat 9 10) / 1)) :=
  ⟨by decide,
   convert_amount_cross_rate 100 "usd" "eur" ratesUSDEUR (by decide) 1 (mkRat 9 10) rfl rfl⟩

/-- C5: when either uppercased code is not a key of the mapping,
`convert_amount` fails with the `UnsupportedCurrency` `ValueError` whose
message names both (uppercased) codes, and returns no value. -/
theorem convert_amount_unsupported (x : ℚ) (a b : String) (R : List (String × Json))
    (h : R.lookup (pyUpper a) = none ∨ R.lookup (pyUpper b) = none) :
    convert_amount x a b R =
      .error (.valueError ("Unsupported currency in set: " ++ (pyUpper a) ++ ", " ++ (pyUpper b))) ∧
    (∃ u v, "Unsupported currency in set: " ++ (pyUpper a) ++ ", " ++ (pyUpper b)
      = u ++ (pyUpper a) ++ v) ∧
    (∃ u v, "Unsupported currency in set: " ++ (pyUpper a) ++ ", " ++ (pyUpper b)
      = u ++ (pyUpper b) ++ v) ∧
    (∀ q : ℚ, convert_amount x a b R ≠ .ok q) := by
  have hmain : convert_amount x a b R =
      .error (.valueError ("Unsupported currency in set: " ++ (pyUpper a) ++ ", " ++ (pyUpper b))) := by
    rcases h with h | h
    · exact convert_unsupported_left x a b R h
    · exact convert_unsupported_right x a b R h
  refine ⟨hmain, ⟨"Unsupported currency in set: ", ", " ++ (pyUpper b), ?_⟩,
    ⟨"Unsupported currency in set: " ++ (pyUpper a) ++ ", ", "", ?_⟩, ?_⟩
  · rw [String.append_assoc]
  · rw [String.append_empty]
  · intro q hq
    rw [hmain] at hq
    cases hq

/-- Witness for C5 at the spec's example: `convert(100, "XYZ", "EUR",
{USD: 1.0, EUR: 0.9})` fails with `UnsupportedCurrency` naming `XYZ`. -/
theorem convert_amount_unsupported_witness :
    convert_amount 100 "XYZ" "EUR" (toJsonRates ratesUSDEUR) =
      .error (.valueError ("Unsupported currency in set: " ++ (pyUpper "XYZ") ++ ", " ++ (pyUpper "EUR"))) ∧
    (∃ u v, "Unsupported currency in set: " ++ (pyUpper "XYZ") ++ ", " ++ (pyUpper "EUR")
      = u ++ (pyUpper "XYZ") ++ v) ∧
    (∃ u v, "Unsupported currency in set: " ++ (pyUpper "XYZ") ++ ", " ++ (pyUpper "EUR")
      = u ++ (pyUpper "EUR") ++ v) ∧
    (∀ q : ℚ, convert_amount 100 "XYZ" "EUR" (toJsonRates ratesUSDEUR) ≠ .ok q) :=
  convert_amount_unsupported 100 "XYZ" "EUR" (toJsonRates ratesUSDEUR) (Or.inl rfl)

/-- C7: with a missing or empty API key, `fetch_rates` fails with the
`MissingCredential` `ValueError` and the HTTP GET is never issued (the
second component, recording whether the network was called, is `false`),
for every base currency and every possible network outcome. -/
theorem fetch_rates_missing_key (api_key : Option String) (base : String) (net : NetResult)
    (h : api_key = none ∨ api_key = some "") :
    fetch_rates api_key base net =
      (.error (.valueError "Missing API key. Put it in .env as API_KEY=..."), false) := by
  rcases h with h | h <;> subst h <;> rfl

/-- Witness for C7: an absent key with base `USD`, even though the network
would have answered. -/
theorem fetch_rates_missing_key_witness :
    fetch_rates none "USD" netA =
      (.error (.valueError "Missing API key. Put it in .env as API_KEY=..."), false) :=
  fetch_rates_missing_key none "USD" netA (Or.inl rfl)

/-- C10: the division in `convert_amount` is unguarded: under the spec's
positivity invariant it never faults (first conjunct), but when the
from-rate is `0.0` it raises `ZeroDivisionError` (second conjunct), a class
the driver's `except (ValueError, RuntimeError)` branch does not catch
(third conjunct). -/
theorem convert_division_guard :
    (∀ (x : ℚ) (a b : String) (R : List (String × ℚ)) (rf rt : ℚ),
        (∀ p ∈ R, 0 < p.2) →
        R.lookup (pyUpper a) = some rf → R.lookup (pyUpper b) = some rt →
        convert_amount x a b (toJsonRates R) = .ok (x * (rt / rf))) ∧
    (∀ (x : ℚ) (a b : String) (R : List (String × ℚ)) (rt : ℚ),
        R.lookup (pyUpper a) = some 0 → R.lookup (pyUpper b) = some rt →
        convert_amount x a b (toJsonRates R) =
          .error (.zeroDivisionError "float division by zero")) ∧
    (∀ m, isCaught (.zeroDivisionError m) = false) := by
  refine ⟨fun x a b R rf rt hpos hf ht => ?_, fun x a b R rt hf ht => ?_, fun _ => rfl⟩
  · have hrf : 0 < rf := hpos _ (mem_of_lookup hf)
    exact convert_ok_of_lookup x a b R rf rt hf ht hrf.ne'
  · exact convert_zeroDiv_of_lookup x a b R rt hf ht

/-- Witness for C10: the positive example mapping converts, the
zero-from-rate mapping raises the uncaught `ZeroDivisionError`. -/
theorem convert_division_guard_witness :
    convert_amount 100 "USD" "EUR" (toJsonRates ratesUSDEUR) = .ok (100 * ((mkRat 9 10) / 1)) ∧
    convert_amount 100 "USD" "EUR" (toJsonRates ratesZero) =
      .error (.zeroDivisionError "float division by zero") ∧
    isCaught (.zeroDivisionError "float division by zero") = false :=
  ⟨convert_division_guard.1 100 "USD" "EUR" ratesUSDEUR 1 (mkRat 9 10) (by decide) rfl rfl,
   convert_division_guard.2.1 100 "USD" "EUR" ratesZero (mkRat 9 10) rfl rfl,
   convert_division_guard.2.2 "float division by zero"⟩

/-- C3: for every JSON object body containing the key `conversion_rates`,
`fetch_rates` normalizes to shape A: `base` is `body.base_code` (default:
uppercased input base), `rates` is `body.conversion_rates` as-is, `updated`
is `body.time_last_update_utc` (default `"unknown"`); and the spec's
shape-A example normalizes to `{base: "USD", rates: {USD: 1.0, EUR: 0.9},
updated: "t1"}`. -/
theorem fetch_rates_shapeA :
    (∀ (key base text : String) (fields : List (String × Json)),
        pyTruthy (some key) = true →
        (fields.lookup "conversion_rates").isSome = true →
        fetch_rates (some key) base (.reply 200 text (some (.obj fields))) =
          (.ok { base := jsonGetD (.obj fields) "base_code" (.str (pyUpper base)),
                 rates := jsonIdx (.obj fields) "conversion_rates",
                 updated := jsonGetD (.obj fields) "time_last_update_utc" (.str "unknown") },
           true)) ∧
    fetch_rates (some "k") "usd" (.reply 200 "" (some bodyA)) =
      (.ok { base := .str "USD",
             rates := .obj [("USD", .num 1), ("EUR", .num (mkRat 9 10))],
             updated := .str "t1" }, true) := by
  constructor
  · intro key base text fields hkey hcr
    simp [fetch_rates, hkey, jsonHasKey, jsonFields, hcr]
  · rfl

/-- Witness for C3 at the spec's shape-A example body. -/
theorem fetch_rates_shapeA_witness :
    fetch_rates (some "k") "usd" (.reply 200 "" (some bodyA)) =
      (.ok { base := .str "USD",
             rates := .obj [("USD", .num 1), ("EUR", .num (mkRat 9 10))],
             updated := .str "t1" }, true) :=
  fetch_rates_shapeA.1 "k" "usd" "" (jsonFields bodyA) rfl rfl

/-- C4: for every JSON object body containing the key `rates` and not the
key `conversion_rates`, `fetch_rates` normalizes to shape B: `base` is
`body.base` (default: uppercased input base), the rates mapping applies
`float` to every value of `body.rates`, and `updated` is `body.date`
(default `"unknown"`); the spec's shape-B example turns the numeric strings
`"1.0"`, `"0.9"` into the floats `1.0`, `0.9`. -/
theorem fetch_rates_shapeB :
    (∀ (key base text : String) (fields l : List (String × Json)),
        pyTruthy (some key) = true →
        fields.lookup "conversion_rates" = none →
        (fields.lookup "rates").isSome = true →
        floatItems (jsonFields (jsonIdx (.obj fields) "rates")) = .ok l →
        fetch_rates (some key) base (.reply 200 text (some (.obj fields))) =
          (.ok { base := jsonGetD (.obj fields) "base" (.str (pyUpper base)),
                 rates := .obj l,
                 updated := jsonGetD (.obj fields) "date" (.str "unknown") }, true)) ∧
    fetch_rates (some "k") "usd" (.reply 200 "" (some bodyB)) =
      (.ok { base := .str "USD",
             rates := .obj [("USD", .num 1), ("EUR", .num (mkRat 9 10))],
             updated := .str "t2" }, true) := by
  constructor
  · intro key base text fields l hkey hcr hr hfi
    simp only [jsonFields] at hfi
    simp [fetch_rates, hkey, jsonHasKey, jsonFields, hcr, hr, hfi]
  · rfl

/-- Witness for C4 at the spec's shape-B example body. -/
theorem fetch_rates_shapeB_witness :
    fetch_rates (some "k") "usd" (.reply 200 "" (some bodyB)) =
      (.ok { base := .str "USD",
             rates := .obj [("USD", .num 1), ("EUR", .num (mkRat 9 10))],
             updated := .str "t2" }, true) :=
  fetch_rates_shapeB.1 "k" "usd" "" (jsonFields bodyB)
    [("USD", .num (mkRat 10 10)), ("EUR", .num (mkRat 9 10))] rfl rfl rfl rfl

/-- C6: for every JSON object body containing neither `conversion_rates`
nor `rates`, `fetch_rates` fails with the `UnexpectedResponseShape`
`RuntimeError` carrying the body's rendering truncated to at most 200
characters. -/
theorem fetch_rates_unexpected_shape :
    (∀ (key base text : String) (fields : List (String × Json)),
        pyTruthy (some key) = true →
        fields.lookup "conversion_rates" = none →
        fields.lookup "rates" = none →
        fetch_rates (some key) base (.reply 200 text (some (.obj fields))) =
          (.error (.runtimeError
            ("Unexpected API response: " ++ pySlice (reprJson (.obj fields)) 200)), true)) ∧
    (∀ s : String, (pySlice s 200).length ≤ 200) := by
  constructor
  · intro key base text fields hkey hcr hr
    simp [fetch_rates, hkey, jsonHasKey, jsonFields, hcr, hr]
  · intro s
    exact pySlice_length s 200

/-- Witness for C6 at a body with neither provider key. -/
theorem fetch_rates_unexpected_shape_witness :
    fetch_rates (some "k") "USD" (.reply 200 "" (some bodyOther)) =
      (.error (.runtimeError
        ("Unexpected API response: " ++ pySlice (reprJson bodyOther) 200)), true) ∧
    (pySlice (reprJson bodyOther) 200).length ≤ 200 :=
  ⟨fetch_rates_unexpected_shape.1 "k" "USD" "" (jsonFields bodyOther) rfl rfl rfl,
   fetch_rates_unexpected_shape.2 (reprJson bodyOther)⟩

/-- C9: every `ValueError`/`RuntimeError`-class failure raised by the
fetch-then-convert pipeline (the classes of the spec's whole error
taxonomy, third conjunct) is caught once by the driver, which prints
exactly one diagnostic line and exits with code 1 (first conjunct); a run
with no error exits with code 0 (second conjunct). -/
theorem main_exit_protocol :
    (∀ (api_key : Option String) (args : Args) (net : NetResult) (e : PyError),
        run_result api_key args net = .error e → isCaught e = true →
        main_run api_key args net = .exited ["❌ Error: " ++ pyErrStr e] 1 ∧
        (["❌ Error: " ++ pyErrStr e] : List String).length = 1) ∧
    (∀ (api_key : Option String) (args : Args) (net : NetResult) (v : ℚ),
        run_result api_key args net = .ok v →
        main_run api_key args net =
          .exited ["Output improved", "=== Currency Converter v1.0 ==="] 0) ∧
    (∀ m, isCaught (.valueError m) = true ∧ isCaught (.runtimeError m) = true) := by
  refine ⟨fun k args net e h hc => ⟨?_, rfl⟩, fun k args net v h => ?_,
    fun m => ⟨rfl, rfl⟩⟩
  · simp [main_run, h, hc]
  · simp [main_run, h]

/-- Witness for C9: a missing-key run exits 1 with one diagnostic line, a
successful run exits 0. -/
theorem main_exit_protocol_witness :
    main_run none argsC2 netA =
      .exited ["❌ Error: " ++
        pyErrStr (.valueError "Missing API key. Put it in .env as API_KEY=...")] 1 ∧
    main_run (some "k") argsC2 netA =
      .exited ["Output improved", "=== Currency Converter v1.0 ==="] 0 :=
  ⟨(main_exit_protocol.1 none argsC2 netA
      (.valueError "Missing API key. Put it in .env as API_KEY=...") rfl rfl).1,
   main_exit_protocol.2.1 (some "k") argsC2 netA (100 * (mkRat 9 10 / 1)) rfl⟩

/-- C2 (code bug): on the success path `main` computes the rounded result
(here `round(90.0, 2) = 90.0`) but the lines it actually prints are the
two fixed placeholder strings of src/main.py lines 108-109 — the
confirmation print that would contain the result is commented out, so no
printed line contains the rounded result. -/
theorem main_success_output_lacks_result :
    run_result (some "k") argsC2 netA = .ok (100 * (mkRat 9 10 / 1)) ∧
    (100 : ℚ) * (mkRat 9 10 / 1) = 90 ∧
    pyRound 90 2 = 90 ∧
    main_run (some "k") argsC2 netA =
      .exited ["Output improved", "=== Currency Converter v1.0 ==="] 0 ∧
    strContainsSub "Output improved" "90" = false ∧
    strContainsSub "=== Currency Converter v1.0 ===" "90" = false := by
  refine ⟨rfl, by norm_num [mkRat], ?_, rfl, rfl, rfl⟩
  have h1 : pow10 2 = 100 := by
    have ht : (2 : ℤ).toNat = 2 := by decide
    norm_num [pow10, ht]
  have h2 : (90 : ℚ) * 100 = 9000 := by norm_num
  have h3 : roundHalfEven 9000 = 9000 := by
    have hf : ⌊(9000 : ℚ)⌋ = 9000 := by norm_num
    simp only [roundHalfEven, hf]
    norm_num
  show ((roundHalfEven ((90 : ℚ) * pow10 2) : ℤ) : ℚ) / pow10 2 = 90
  rw [h1, h2, h3]
  norm_num

end CurrencyConverter
